import Mathlib

/-
  Verification development for the Photo/Video sharing backend.

  The embedding below models `app/routers/files.py` together with the
  configuration constants of `app/core/config.py` and the `Post` model of
  `app/db/db_model.py`.  Python strings are Lean `String`s, uploaded payload
  bytes are `List Nat`, the upload directory is a `Finset String` of stored
  file names, and the metadata table is a `List PostRec` in insertion order.
  Sources of nondeterminism in the code (the `uuid4().hex` token, the clock,
  and whether the database commit raises `SQLAlchemyError`) are explicit
  parameters of the embedded handler.
-/

namespace PhotoShare

/-- Python whitespace characters stripped by `str.strip()` (ASCII range). -/
def isPyWs (c : Char) : Bool :=
  c = ' ' || c = '\t' || c = '\n' || c = '\r' || c = '\x0b' || c = '\x0c'

/-- Embedding of Python `str.strip()`: drop whitespace from both ends. -/
def pyStrip (s : String) : String :=
  ⟨((s.toList.dropWhile isPyWs).reverse.dropWhile isPyWs).reverse⟩

/-- Embedding of Python `str.lower()` (ASCII case folding). -/
def pyLower (s : String) : String :=
  ⟨s.toList.map Char.toLower⟩

/-- Embedding of `", ".join(...)` style joining. -/
def joinSep (sep : String) : List String → String
  | [] => ""
  | [x] => x
  | x :: y :: xs => x ++ sep ++ joinSep sep (y :: xs)

/-- Code-point lexicographic order on strings, Python's `<=` on `str`. -/
def lexLe : List Char → List Char → Bool
  | [], _ => true
  | _ :: _, [] => false
  | x :: xs, y :: ys =>
    if x.toNat < y.toNat then true
    else if y.toNat < x.toNat then false
    else lexLe xs ys

def insertSorted (x : String) : List String → List String
  | [] => [x]
  | y :: ys =>
    match lexLe x.toList y.toList with
    | true => x :: y :: ys
    | false => y :: insertSorted x ys

/-- Embedding of Python `sorted(...)` on strings (insertion sort is
stable, like Python's sort, and on a totally ordered type every stable
sort computes the same list). -/
def sortedStrings : List String → List String
  | [] => []
  | x :: xs => insertSorted x (sortedStrings xs)

/-! ## Configuration (`app/core/config.py`)

`ALLOWED_UPLOAD_CONTENT_TYPES` is a hard-coded set in the source.
`MAX_UPLOAD_SIZE_BYTES` is read from the environment with a 5 MiB default;
the embedded functions take the configured value `maxBytes` as a parameter
and `MAX_UPLOAD_SIZE_BYTES` below is the default. -/

def ALLOWED_UPLOAD_CONTENT_TYPES : List String :=
  ["image/jpeg", "image/png", "image/webp"]

def MAX_UPLOAD_SIZE_BYTES : Nat := 5 * 1024 * 1024

/-- An `HTTPException`: status code plus human-readable detail. -/
structure HErr where
  status : Nat
  detail : String
  deriving DecidableEq, Repr

/-- Embedding of `_validate_upload_file_type`: normalize the declared
content type (`(file.content_type or "").strip().lower()`) and reject with
415 when it is not in the allow-list, surfacing the sorted allow-list in
the detail message.  `none` models a `file.content_type` of Python `None`. -/
def _validate_upload_file_type (content_type? : Option String) :
    Except HErr String :=
  let content_type := pyLower (pyStrip (content_type?.getD ""))
  if content_type ∈ ALLOWED_UPLOAD_CONTENT_TYPES then
    Except.ok content_type
  else
    let allowed := joinSep ", " (sortedStrings ALLOWED_UPLOAD_CONTENT_TYPES)
    Except.error
      { status := 415
        detail := "Unsupported file type \x27" ++
          (if content_type = "" then "unknown" else content_type) ++
          "\x27. Allowed types: " ++ allowed }

/-- Embedding of `_read_file_content`: `await file.read(max + 1)` returns
the first `maxBytes + 1` bytes of the payload; an empty read is a 400 and a
read longer than `maxBytes` is a 413. -/
def _read_file_content (maxBytes : Nat) (payload : List Nat) :
    Except HErr (List Nat) :=
  let content := payload.take (maxBytes + 1)
  if content.isEmpty then
    Except.error { status := 400, detail := "Uploaded file is empty." }
  else if content.length > maxBytes then
    Except.error
      { status := 413
        detail := "File exceeds max allowed size of " ++
          toString maxBytes ++ " bytes." }
  else
    Except.ok content

/-! ## Storage-name generation (`_build_storage_name`)

`Path(original_filename or "").suffix` is modelled by `pySuffix ∘ pathName`:
`pathName` is `PurePath.name` (the last path component, with empty and
single-dot components dropped as the pathlib parser does) and `pySuffix`
mirrors the pathlib `suffix` property: the slice of the name from its last
dot, provided that dot is neither the first nor the last character. -/

def splitOnChar (c : Char) : List Char → List (List Char)
  | [] => [[]]
  | x :: xs =>
    if x = c then [] :: splitOnChar c xs
    else
      match splitOnChar c xs with
      | [] => [[x]]
      | r :: rs => (x :: r) :: rs

def pathName (s : String) : String :=
  ((((splitOnChar '/' s.toList).map (fun cs => (⟨cs⟩ : String))).filter
      (fun p => p ≠ "" && p ≠ "."))).getLastD ""

def pySuffix (nameStr : String) : String :=
  let cs := nameStr.toList
  match (cs.reverse.findIdx? (· = '.')) with
  | some j =>
      let i := cs.length - 1 - j
      if 0 < i ∧ i < cs.length - 1 then ⟨cs.drop i⟩ else ""
  | none => ""

/-- Embedding of `_build_storage_name`: `uuid4().hex` is the explicit
`token`; the lower-cased suffix of the original filename is kept only when
it is at most 10 characters long. -/
def _build_storage_name (original_filename : Option String) (token : String) :
    String :=
  let suffix := pyLower (pySuffix (pathName (original_filename.getD "")))
  let suffix := if suffix.length > 10 then "" else suffix
  token ++ suffix

/-! ## Data model (`app/db/db_model.py`) -/

/-- A row of the `posts` table as created by the upload handler.  The
database-assigned `id` (uuid) plays no role in any claim and is omitted;
`created_at` is the server clock at insertion, modelled as a `Nat`. -/
structure PostRec where
  caption : Option String
  url : String
  file_type : String
  file_name : String
  created_at : Nat
  deriving DecidableEq, Repr

/-- The shared mutable state: the upload directory (set of stored file
names) and the `posts` table in insertion order. -/
structure SysState where
  files : Finset String
  db : List PostRec
  deriving DecidableEq

/-- Observable effects of one upload request, in program order.  `read n`
is `await file.read(n)`; `write` is `storage_path.write_bytes`;
`insertAttempt` is the `session.add`/`commit`; `unlink` is
`storage_path.unlink(missing_ok=True)`; `close` is `await file.close()`. -/
inductive Ev where
  | read (n : Nat)
  | write (name : String)
  | insertAttempt
  | unlink (name : String)
  | close
  deriving DecidableEq, Repr

/-- Result of the upload handler: the 201 response body or a raised
`HTTPException`. -/
inductive UploadResult where
  | created (message : String) (post : PostRec)
  | error (e : HErr)
  deriving DecidableEq, Repr

structure UploadOutcome where
  result : UploadResult
  state : SysState
  events : List Ev
  deriving DecidableEq

/-- Embedding of `Path.unlink`: removes the file; with `missing_ok = false`
an absent file is an error (`none` models the raised `FileNotFoundError`),
with `missing_ok = true` absence is ignored. -/
def fileUnlink (files : Finset String) (name : String) (missing_ok : Bool) :
    Option (Finset String) :=
  if name ∈ files then some (files.erase name)
  else if missing_ok then some files else none

/-- The `Post(...)` constructor call of the upload handler: caption is
`caption.strip() or None`, the url is the public prefix plus the stored
name, and `created_at` is the database clock. -/
def mkPost (caption stored_name content_type : String) (now : Nat) : PostRec :=
  { caption := if pyStrip caption = "" then none else some (pyStrip caption)
    url := "/uploads/" ++ stored_name
    file_type := content_type
    file_name := stored_name
    created_at := now }

/-- Embedding of the `upload_file` handler (`POST /upload`).

Order of operations follows the source exactly: content-type validation,
bounded read, directory creation (stateless here), file write, metadata
insert inside try/except/finally.  `insertErr = some msg` models
`session.commit()` raising an `SQLAlchemyError` with message `msg`;
`insertErr = none` models a successful commit.  `token` is `uuid4().hex`
and `now` the database clock for `created_at`.  Note that the
`finally: await file.close()` clause wraps only the persistence block, so
no `close` event is emitted on the validation failure paths. -/
def upload_file (maxBytes : Nat) (st : SysState)
    (file_content_type : Option String) (file_filename : Option String)
    (file_payload : List Nat) (caption : String)
    (token : String) (now : Nat) (insertErr : Option String) :
    UploadOutcome :=
  match _validate_upload_file_type file_content_type with
  | Except.error e => ⟨UploadResult.error e, st, []⟩
  | Except.ok content_type =>
    match _read_file_content maxBytes file_payload with
    | Except.error e => ⟨UploadResult.error e, st, [Ev.read (maxBytes + 1)]⟩
    | Except.ok _content =>
      let stored_name := _build_storage_name file_filename token
      let files1 := insert stored_name st.files
      let post : PostRec := mkPost caption stored_name content_type now
      match insertErr with
      | none =>
          ⟨UploadResult.created "File uploaded successfully" post,
           ⟨files1, st.db ++ [post]⟩,
           [Ev.read (maxBytes + 1), Ev.write stored_name, Ev.insertAttempt,
            Ev.close]⟩
      | some _msg =>
          ⟨UploadResult.error
             { status := 500, detail := "Failed to save upload metadata." },
           ⟨(fileUnlink files1 stored_name true).getD files1, st.db⟩,
           [Ev.read (maxBytes + 1), Ev.write stored_name, Ev.insertAttempt,
            Ev.unlink stored_name, Ev.close]⟩

/-! ## Feed handler (`GET /feed`) -/

structure FeedResponse where
  posts : List PostRec
  limit : Nat
  offset : Nat
  total : Nat
  deriving DecidableEq, Repr

/-- Comparator of `order_by(Post.created_at.desc())`. -/
def newestFirst (a b : PostRec) : Bool :=
  decide (b.created_at ≤ a.created_at)

/-- Embedding of the `get_feed` handler: fetch `limit` rows ordered by
`created_at` descending after skipping `offset` rows, plus the table-wide
`count(Post.id)` (the `id` column is the non-nullable primary key, so the
count is the number of rows). -/
def get_feed (db : List PostRec) (limit offset : Nat) : FeedResponse :=
  let sorted := db.mergeSort newestFirst
  { posts := (sorted.drop offset).take limit
    limit := limit
    offset := offset
    total := db.length }

/-- States reachable from an empty deployment through the only mutation
path of the system, the upload handler (the feed handler is read-only). -/
inductive Reachable (maxBytes : Nat) : SysState → Prop
  | init : Reachable maxBytes ⟨∅, []⟩
  | upload (st : SysState) (h : Reachable maxBytes st)
      (ct fn : Option String) (payload : List Nat) (caption token : String)
      (now : Nat) (insertErr : Option String) :
      Reachable maxBytes
        (upload_file maxBytes st ct fn payload caption token now
          insertErr).state

/-! ## Unfolding lemmas for the four paths of the upload handler -/

theorem upload_file_eq_validate_error (maxBytes : Nat) (st : SysState)
    {ct : Option String} (fn : Option String) (payload : List Nat)
    (caption token : String) (now : Nat) (insertErr : Option String)
    {e : HErr} (hv : _validate_upload_file_type ct = Except.error e) :
    upload_file maxBytes st ct fn payload caption token now insertErr =
      ⟨UploadResult.error e, st, []⟩ := by
  unfold upload_file
  rw [hv]

theorem upload_file_eq_read_error (maxBytes : Nat) (st : SysState)
    {ct : Option String} (fn : Option String) {payload : List Nat}
    (caption token : String) (now : Nat) (insertErr : Option String)
    {ctype : String} {e : HErr}
    (hv : _validate_upload_file_type ct = Except.ok ctype)
    (hr : _read_file_content maxBytes payload = Except.error e) :
    upload_file maxBytes st ct fn payload caption token now insertErr =
      ⟨UploadResult.error e, st, [Ev.read (maxBytes + 1)]⟩ := by
  unfold upload_file
  rw [hv, hr]

theorem upload_file_eq_commit (maxBytes : Nat) (st : SysState)
    {ct : Option String} (fn : Option String) {payload : List Nat}
    (caption token : String) (now : Nat)
    {ctype : String} {content : List Nat}
    (hv : _validate_upload_file_type ct = Except.ok ctype)
    (hr : _read_file_content maxBytes payload = Except.ok content) :
    upload_file maxBytes st ct fn payload caption token now none =
      ⟨UploadResult.created "File uploaded successfully"
         (mkPost caption (_build_storage_name fn token) ctype now),
       ⟨insert (_build_storage_name fn token) st.files,
        st.db ++ [mkPost caption (_build_storage_name fn token) ctype now]⟩,
       [Ev.read (maxBytes + 1), Ev.write (_build_storage_name fn token),
        Ev.insertAttempt, Ev.close]⟩ := by
  unfold upload_file
  rw [hv, hr]

theorem upload_file_eq_rollback (maxBytes : Nat) (st : SysState)
    {ct : Option String} (fn : Option String) {payload : List Nat}
    (caption token : String) (now : Nat) (errMsg : String)
    {ctype : String} {content : List Nat}
    (hv : _validate_upload_file_type ct = Except.ok ctype)
    (hr : _read_file_content maxBytes payload = Except.ok content) :
    upload_file maxBytes st ct fn payload caption token now (some errMsg) =
      ⟨UploadResult.error
         { status := 500, detail := "Failed to save upload metadata." },
       ⟨(fileUnlink (insert (_build_storage_name fn token) st.files)
           (_build_storage_name fn token) true).getD
           (insert (_build_storage_name fn token) st.files),
        st.db⟩,
       [Ev.read (maxBytes + 1), Ev.write (_build_storage_name fn token),
        Ev.insertAttempt, Ev.unlink (_build_storage_name fn token),
        Ev.close]⟩ := by
  unfold upload_file
  rw [hv, hr]

/-- The 415 error is the only error `_validate_upload_file_type` raises. -/
theorem validate_error_status {ct : Option String} {e : HErr}
    (h : _validate_upload_file_type ct = Except.error e) : e.status = 415 := by
  unfold _validate_upload_file_type at h
  dsimp only at h
  split at h
  · exact absurd h (by simp)
  · cases h
    rfl

/-- On success `_validate_upload_file_type` returns the normalized type. -/
theorem validate_ok_eq {ct : Option String} {c : String}
    (h : _validate_upload_file_type ct = Except.ok c) :
    c = pyLower (pyStrip (ct.getD "")) := by
  unfold _validate_upload_file_type at h
  dsimp only at h
  split at h
  · cases h
    rfl
  · exact absurd h (by simp)

/-- The only errors `_read_file_content` raises are 400 and 413. -/
theorem read_error_status {maxBytes : Nat} {payload : List Nat} {e : HErr}
    (h : _read_file_content maxBytes payload = Except.error e) :
    e.status = 400 ∨ e.status = 413 := by
  unfold _read_file_content at h
  dsimp only at h
  split at h
  · cases h
    exact Or.inl rfl
  · split at h
    · cases h
      exact Or.inr rfl
    · exact absurd h (by simp)

/-- Lowercasing is character-by-character and preserves string length. -/
theorem pyLower_length (s : String) : (pyLower s).length = s.length := by
  show (s.toList.map Char.toLower).length = s.length
  rw [List.length_map]
  rfl

/-! ## Claims -/

/-- C1: for every table state with N total records and every valid request
with limit k (1 ≤ k ≤ 100) and offset o, the feed handler returns
min(k, max(0, N − o)) records (Nat subtraction is truncated, so
`db.length - o` is exactly max(0, N − o)) sorted by `created_at`
descending, echoes `limit` and `offset` unchanged, and returns `total` = N
regardless of `limit` and `offset`. -/
theorem feed_pagination (db : List PostRec) (k o : Nat)
    (hk1 : 1 ≤ k) (hk2 : k ≤ 100) :
    (get_feed db k o).posts.length = min k (db.length - o) ∧
    List.Pairwise (fun a b => b.created_at ≤ a.created_at)
      (get_feed db k o).posts ∧
    (get_feed db k o).limit = k ∧
    (get_feed db k o).offset = o ∧
    (get_feed db k o).total = db.length := by
  refine ⟨?_, ?_, rfl, rfl, rfl⟩
  · show (((db.mergeSort newestFirst).drop o).take k).length = _
    rw [List.length_take, List.length_drop, List.length_mergeSort]
  · have hs : List.Pairwise (fun a b => newestFirst a b = true)
        (db.mergeSort newestFirst) :=
      List.sorted_mergeSort
        (fun a b c hab hbc => by
          simp only [newestFirst, decide_eq_true_eq] at hab hbc ⊢
          omega)
        (fun a b => by
          simp only [newestFirst, Bool.or_eq_true, decide_eq_true_eq]
          omega)
        db
    have hsub : (((db.mergeSort newestFirst).drop o).take k).Sublist
        (db.mergeSort newestFirst) :=
      (List.take_sublist _ _).trans (List.drop_sublist _ _)
    exact (List.Pairwise.sublist hsub hs).imp
      (fun h => of_decide_eq_true h)

def wdb : List PostRec :=
  [⟨none, "/uploads/a", "image/png", "a", 1⟩,
   ⟨some "x", "/uploads/b", "image/jpeg", "b", 5⟩,
   ⟨none, "/uploads/c", "image/webp", "c", 3⟩]

/-- Witness for C1 at a concrete three-row table and limit 2, offset 0. -/
theorem feed_pagination_witness :
    (get_feed wdb 2 0).posts.length = min 2 (wdb.length - 0) ∧
    List.Pairwise (fun a b => b.created_at ≤ a.created_at)
      (get_feed wdb 2 0).posts ∧
    (get_feed wdb 2 0).limit = 2 ∧
    (get_feed wdb 2 0).offset = 0 ∧
    (get_feed wdb 2 0).total = wdb.length :=
  feed_pagination wdb 2 0 (by decide) (by decide)

/-- C6: the upload read decides using only the first max+1 payload bytes;
400 is raised iff the payload is empty, 413 iff the bytes read exceed the
configured maximum (the (max+1)-th byte exists), and otherwise the payload
is accepted unchanged — in particular a payload of exactly the configured
maximum length. -/
theorem read_content_size_policy (maxBytes : Nat) (payload : List Nat) :
    (∀ q : List Nat, q.take (maxBytes + 1) = payload.take (maxBytes + 1) →
      _read_file_content maxBytes q = _read_file_content maxBytes payload) ∧
    (∀ c, _read_file_content maxBytes payload = Except.ok c →
      c = payload ∧ payload.length ≤ maxBytes) ∧
    ((∃ e, _read_file_content maxBytes payload = Except.error e ∧
        e.status = 400) ↔ payload = []) ∧
    ((∃ e, _read_file_content maxBytes payload = Except.error e ∧
        e.status = 413) ↔ maxBytes < payload.length) ∧
    (payload ≠ [] → payload.length ≤ maxBytes →
      _read_file_content maxBytes payload = Except.ok payload) ∧
    (0 < maxBytes → payload.length = maxBytes →
      _read_file_content maxBytes payload = Except.ok payload) := by
  have hext : ∀ q : List Nat,
      q.take (maxBytes + 1) = payload.take (maxBytes + 1) →
      _read_file_content maxBytes q = _read_file_content maxBytes payload := by
    intro q hq
    unfold _read_file_content
    rw [hq]
  by_cases hp : payload = []
  · subst hp
    have h400 : _read_file_content maxBytes [] =
        Except.error { status := 400, detail := "Uploaded file is empty." } := by
      unfold _read_file_content
      simp
    refine ⟨hext, ?_, ?_, ?_, ?_, ?_⟩
    · intro c hc
      rw [h400] at hc
      cases hc
    · exact ⟨fun _ => rfl, fun _ => ⟨_, h400, rfl⟩⟩
    · constructor
      · rintro ⟨e, he, hst⟩
        rw [h400] at he
        cases he
        simp at hst
      · intro h
        simp at h
    · intro h
      exact absurd rfl h
    · intro h1 h2
      simp at h2
      omega
  · by_cases hlen : payload.length ≤ maxBytes
    · have htake : payload.take (maxBytes + 1) = payload :=
        List.take_of_length_le (by omega)
      have hok : _read_file_content maxBytes payload = Except.ok payload := by
        unfold _read_file_content
        rw [htake, if_neg (by simp [List.isEmpty_iff, hp]),
          if_neg (by omega)]
      refine ⟨hext, ?_, ?_, ?_, fun _ _ => hok, fun _ _ => hok⟩
      · intro c hc
        rw [hok] at hc
        cases hc
        exact ⟨rfl, hlen⟩
      · rw [hok]
        simp [hp]
      · rw [hok]
        simp
        omega
    · have hbig : maxBytes < payload.length := by omega
      have herr : _read_file_content maxBytes payload =
          Except.error
            { status := 413
              detail := "File exceeds max allowed size of " ++
                toString maxBytes ++ " bytes." } := by
        unfold _read_file_content
        rw [if_neg (by
            simp only [List.isEmpty_iff, List.take_eq_nil_iff]
            push_neg
            exact ⟨by omega, hp⟩),
          if_pos (by
            rw [List.length_take]
            omega)]
      refine ⟨hext, ?_, ?_, ?_, ?_, ?_⟩
      · intro c hc
        rw [herr] at hc
        cases hc
      · rw [herr]
        simp [hp]
      · rw [herr]
        simp
        omega
      · intro _ h
        omega
      · intro _ h
        omega

/-- Witness for C6: with a 3-byte cap, the oversized, the empty, the
boundary-length, and the truncated-read cases behave as claimed. -/
theorem read_content_size_policy_witness :
    _read_file_content 3 [7, 7, 7] = Except.ok [7, 7, 7] :=
  (read_content_size_policy 3 [7, 7, 7]).2.2.2.2.2 (by decide) (by decide)

/-- C7: the stored filename is the fresh token concatenated with the
original filename's (lower-cased) extension exactly when that extension —
whose length the lower-casing preserves, dot included — is at most 10
characters, and the token alone otherwise; no other part of the
client-supplied filename influences the stored name (filenames with equal
extensions yield equal stored names). -/
theorem storage_name_spec (fn : Option String) (token : String) :
    ((pyLower (pySuffix (pathName (fn.getD "")))).length ≤ 10 →
      _build_storage_name fn token =
        token ++ pyLower (pySuffix (pathName (fn.getD "")))) ∧
    (10 < (pyLower (pySuffix (pathName (fn.getD "")))).length →
      _build_storage_name fn token = token) ∧
    (pyLower (pySuffix (pathName (fn.getD "")))).length =
      (pySuffix (pathName (fn.getD ""))).length ∧
    ∀ fn₂ : Option String,
      pyLower (pySuffix (pathName (fn₂.getD ""))) =
          pyLower (pySuffix (pathName (fn.getD ""))) →
        _build_storage_name fn₂ token = _build_storage_name fn token := by
  refine ⟨?_, ?_, pyLower_length _, ?_⟩
  · intro h
    unfold _build_storage_name
    dsimp only
    rw [if_neg (by omega)]
  · intro h
    unfold _build_storage_name
    dsimp only
    rw [if_pos h]
    simp
  · intro fn₂ heq
    unfold _build_storage_name
    dsimp only
    rw [heq]

/-- Witness for C7: a path-qualified mixed-case name keeps only the short
lower-cased extension next to the token. -/
theorem storage_name_spec_witness :
    _build_storage_name (some "holiday/photo.JPG") "3f2a" =
      "3f2a" ++ pyLower (pySuffix (pathName "holiday/photo.JPG")) :=
  (storage_name_spec (some "holiday/photo.JPG") "3f2a").1 (by decide)

/-- C8: whenever the upload handler returns a created post, the stored
caption is the client caption with surrounding whitespace trimmed, with an
all-whitespace caption stored as `none` rather than the empty string. -/
theorem upload_caption_normalization (maxBytes : Nat) (st : SysState)
    (ct fn : Option String) (payload : List Nat) (caption token : String)
    (now : Nat) (insertErr : Option String) (msg : String) (post : PostRec)
    (h : (upload_file maxBytes st ct fn payload caption token now
        insertErr).result = UploadResult.created msg post) :
    (pyStrip caption ≠ "" → post.caption = some (pyStrip caption)) ∧
    (pyStrip caption = "" → post.caption = none) := by
  cases hv : _validate_upload_file_type ct with
  | error e =>
      rw [upload_file_eq_validate_error maxBytes st fn payload caption token
        now insertErr hv] at h
      simp at h
  | ok ctype =>
      cases hr : _read_file_content maxBytes payload with
      | error e =>
          rw [upload_file_eq_read_error maxBytes st fn caption token now
            insertErr hv hr] at h
          simp at h
      | ok content =>
          cases insertErr with
          | some m =>
              rw [upload_file_eq_rollback maxBytes st fn caption token now m
                hv hr] at h
              simp at h
          | none =>
              rw [upload_file_eq_commit maxBytes st fn caption token now
                hv hr] at h
              simp only [UploadResult.created.injEq] at h
              obtain ⟨hmsg, hpost⟩ := h
              subst hpost
              constructor
              · intro hne
                simp [mkPost, hne]
              · intro heq
                simp [mkPost, heq]

/-- Witness for C8 at a concrete successful upload with caption
" sunset ". -/
theorem upload_caption_normalization_witness :
    (pyStrip " sunset " ≠ "" →
      (⟨some "sunset", "/uploads/tok.png", "image/png", "tok.png", 7⟩ :
          PostRec).caption = some (pyStrip " sunset ")) ∧
    (pyStrip " sunset " = "" →
      (⟨some "sunset", "/uploads/tok.png", "image/png", "tok.png", 7⟩ :
          PostRec).caption = none) :=
  upload_caption_normalization 100 ⟨∅, []⟩ (some "image/png") (some "a.png")
    [1] " sunset " "tok" 7 none "File uploaded successfully"
    ⟨some "sunset", "/uploads/tok.png", "image/png", "tok.png", 7⟩
    (by decide)

/-- C9: a missing (`None`) or empty declared content type normalizes to
the empty string, which is not in the allow-list, so the request is
rejected with 415 and the error detail reports the type as unknown. -/
theorem missing_content_type_rejected (ct : Option String)
    (h : ct = none ∨ ct = some "") :
    pyLower (pyStrip (ct.getD "")) = "" ∧
    "" ∉ ALLOWED_UPLOAD_CONTENT_TYPES ∧
    ∃ e, _validate_upload_file_type ct = Except.error e ∧ e.status = 415 ∧
      e.detail = "Unsupported file type \x27unknown\x27. " ++
        "Allowed types: image/jpeg, image/png, image/webp" := by
  rcases h with h | h <;> subst h <;>
    exact ⟨rfl, by decide, ⟨_, rfl, rfl, by decide⟩⟩

/-- Witness for C9 at a `None` content type. -/
theorem missing_content_type_rejected_witness :
    pyLower (pyStrip ((none : Option String).getD "")) = "" ∧
    "" ∉ ALLOWED_UPLOAD_CONTENT_TYPES ∧
    ∃ e, _validate_upload_file_type none = Except.error e ∧ e.status = 415 ∧
      e.detail = "Unsupported file type \x27unknown\x27. " ++
        "Allowed types: image/jpeg, image/png, image/webp" :=
  missing_content_type_rejected none (Or.inl rfl)

/-- A created (201) result can only arise from the commit path: validation
and read succeeded, the insert did not fail, and the post is the record
built by the handler. -/
theorem upload_created_shape (maxBytes : Nat) (st : SysState)
    (ct fn : Option String) (payload : List Nat) (caption token : String)
    (now : Nat) (insertErr : Option String) (msg : String) (post : PostRec)
    (h : (upload_file maxBytes st ct fn payload caption token now
        insertErr).result = UploadResult.created msg post) :
    ∃ ctype content,
      _validate_upload_file_type ct = Except.ok ctype ∧
      _read_file_content maxBytes payload = Except.ok content ∧
      insertErr = none ∧
      msg = "File uploaded successfully" ∧
      post = mkPost caption (_build_storage_name fn token) ctype now := by
  cases hv : _validate_upload_file_type ct with
  | error e =>
      rw [upload_file_eq_validate_error maxBytes st fn payload caption token
        now insertErr hv] at h
      simp at h
  | ok ctype =>
      cases hr : _read_file_content maxBytes payload with
      | error e =>
          rw [upload_file_eq_read_error maxBytes st fn caption token now
            insertErr hv hr] at h
          simp at h
      | ok content =>
          cases insertErr with
          | some m =>
              rw [upload_file_eq_rollback maxBytes st fn caption token now m
                hv hr] at h
              simp at h
          | none =>
              rw [upload_file_eq_commit maxBytes st fn caption token now
                hv hr] at h
              simp only [UploadResult.created.injEq] at h
              exact ⟨ctype, content, rfl, rfl, rfl, h.1.symm, h.2.symm⟩

/-- C2: when the metadata insert fails after the file write, the handler
leaves the table as it was before the request (rollback), deletes the
just-written file (the delete runs with missing_ok, so it cannot raise
even when the file is already absent), and reports a 500 whose detail is a
fixed generic string, independent of the storage-layer error message. -/
theorem upload_insert_failure_compensation (maxBytes : Nat) (st : SysState)
    (ct fn : Option String) (payload : List Nat) (caption token : String)
    (now : Nat) (errMsg : String) (ctype : String) (content : List Nat)
    (hv : _validate_upload_file_type ct = Except.ok ctype)
    (hr : _read_file_content maxBytes payload = Except.ok content) :
    (upload_file maxBytes st ct fn payload caption token now
        (some errMsg)).state.db = st.db ∧
    _build_storage_name fn token ∉
      (upload_file maxBytes st ct fn payload caption token now
        (some errMsg)).state.files ∧
    (_build_storage_name fn token ∉ st.files →
      (upload_file maxBytes st ct fn payload caption token now
        (some errMsg)).state.files = st.files) ∧
    (upload_file maxBytes st ct fn payload caption token now
        (some errMsg)).result =
      UploadResult.error
        { status := 500, detail := "Failed to save upload metadata." } ∧
    ∀ (files : Finset String) (nm : String),
      (fileUnlink files nm true).isSome = true := by
  rw [upload_file_eq_rollback maxBytes st fn caption token now errMsg hv hr]
  have hmem : _build_storage_name fn token ∈
      insert (_build_storage_name fn token) st.files :=
    Finset.mem_insert_self _ _
  have hunl : fileUnlink (insert (_build_storage_name fn token) st.files)
      (_build_storage_name fn token) true =
      some ((insert (_build_storage_name fn token) st.files).erase
        (_build_storage_name fn token)) := by
    unfold fileUnlink
    rw [if_pos hmem]
  refine ⟨rfl, ?_, ?_, rfl, ?_⟩
  · show _ ∉ (fileUnlink _ _ _).getD _
    rw [hunl]
    exact Finset.not_mem_erase _ _
  · intro hfresh
    show (fileUnlink _ _ _).getD _ = st.files
    rw [hunl, Option.getD_some]
    exact Finset.erase_insert hfresh
  · intro files nm
    unfold fileUnlink
    split
    · rfl
    · rfl

/-- Witness for C2 at a concrete failing insert over an empty deployment. -/
theorem upload_insert_failure_compensation_witness :
    (upload_file 100 ⟨∅, []⟩ (some "image/png") (some "a.png") [1] "c" "tok"
        7 (some "db down")).state.db = (⟨∅, []⟩ : SysState).db ∧
    _build_storage_name (some "a.png") "tok" ∉
      (upload_file 100 ⟨∅, []⟩ (some "image/png") (some "a.png") [1] "c"
        "tok" 7 (some "db down")).state.files ∧
    (_build_storage_name (some "a.png") "tok" ∉
        (⟨∅, []⟩ : SysState).files →
      (upload_file 100 ⟨∅, []⟩ (some "image/png") (some "a.png") [1] "c"
        "tok" 7 (some "db down")).state.files =
        (⟨∅, []⟩ : SysState).files) ∧
    (upload_file 100 ⟨∅, []⟩ (some "image/png") (some "a.png") [1] "c" "tok"
        7 (some "db down")).result =
      UploadResult.error
        { status := 500, detail := "Failed to save upload metadata." } ∧
    ∀ (files : Finset String) (nm : String),
      (fileUnlink files nm true).isSome = true :=
  upload_insert_failure_compensation 100 ⟨∅, []⟩ (some "image/png")
    (some "a.png") [1] "c" "tok" 7 "db down" "image/png" [1] rfl rfl

/-- C3: when validation fails (content type outside the allow-list, empty
payload, or oversized payload), the handler reports the corresponding 4xx
error, the state is unchanged, and no write, insert, or unlink action was
performed. -/
theorem upload_validation_failure_no_side_effects (maxBytes : Nat)
    (st : SysState) (ct fn : Option String) (payload : List Nat)
    (caption token : String) (now : Nat) (insertErr : Option String)
    (h : (_validate_upload_file_type ct).isOk = false ∨
      (_read_file_content maxBytes payload).isOk = false) :
    (upload_file maxBytes st ct fn payload caption token now
        insertErr).state = st ∧
    (∃ e, (upload_file maxBytes st ct fn payload caption token now
        insertErr).result = UploadResult.error e ∧
      (e.status = 415 ∨ e.status = 400 ∨ e.status = 413)) ∧
    (∀ nm, Ev.write nm ∉ (upload_file maxBytes st ct fn payload caption
      token now insertErr).events) ∧
    Ev.insertAttempt ∉ (upload_file maxBytes st ct fn payload caption token
      now insertErr).events ∧
    (∀ e, _validate_upload_file_type ct = Except.error e →
      (upload_file maxBytes st ct fn payload caption token now
        insertErr).result = UploadResult.error e) ∧
    (∀ e, (_validate_upload_file_type ct).isOk = true →
      _read_file_content maxBytes payload = Except.error e →
      (upload_file maxBytes st ct fn payload caption token now
        insertErr).result = UploadResult.error e) := by
  cases hv : _validate_upload_file_type ct with
  | error e =>
      rw [upload_file_eq_validate_error maxBytes st fn payload caption token
        now insertErr hv]
      refine ⟨rfl, ⟨e, rfl, Or.inl (validate_error_status hv)⟩, ?_, ?_,
        ?_, ?_⟩
      · intro nm hmem
        simp at hmem
      · simp
      · intro e2 he2
        cases he2
        rfl
      · intro e2 hok _
        simp [Except.isOk, Except.toBool] at hok
  | ok ctype =>
      cases hr : _read_file_content maxBytes payload with
      | error e =>
          rw [upload_file_eq_read_error maxBytes st fn caption token now
            insertErr hv hr]
          refine ⟨rfl, ⟨e, rfl, Or.inr (read_error_status hr)⟩, ?_, ?_,
            ?_, ?_⟩
          · intro nm hmem
            simp at hmem
          · simp
          · intro e2 he2
            simp at he2
          · intro e2 _ hre2
            cases hre2
            rfl
      | ok content =>
          exfalso
          rcases h with h | h
          · rw [hv] at h
            simp [Except.isOk, Except.toBool] at h
          · rw [hr] at h
            simp [Except.isOk, Except.toBool] at h

/-- Witness for C3 at a concrete disallowed content type. -/
theorem upload_validation_failure_witness :
    (upload_file 100 ⟨∅, []⟩ (some "text/plain") (some "notes.txt") [1] "c"
        "tok" 7 none).state = (⟨∅, []⟩ : SysState) ∧
    (∃ e, (upload_file 100 ⟨∅, []⟩ (some "text/plain") (some "notes.txt")
        [1] "c" "tok" 7 none).result = UploadResult.error e ∧
      (e.status = 415 ∨ e.status = 400 ∨ e.status = 413)) ∧
    (∀ nm, Ev.write nm ∉ (upload_file 100 ⟨∅, []⟩ (some "text/plain")
      (some "notes.txt") [1] "c" "tok" 7 none).events) ∧
    Ev.insertAttempt ∉ (upload_file 100 ⟨∅, []⟩ (some "text/plain")
      (some "notes.txt") [1] "c" "tok" 7 none).events ∧
    (∀ e, _validate_upload_file_type (some "text/plain") = Except.error e →
      (upload_file 100 ⟨∅, []⟩ (some "text/plain") (some "notes.txt") [1]
        "c" "tok" 7 none).result = UploadResult.error e) ∧
    (∀ e, (_validate_upload_file_type (some "text/plain")).isOk = true →
      _read_file_content 100 [1] = Except.error e →
      (upload_file 100 ⟨∅, []⟩ (some "text/plain") (some "notes.txt") [1]
        "c" "tok" 7 none).result = UploadResult.error e) :=
  upload_validation_failure_no_side_effects 100 ⟨∅, []⟩ (some "text/plain")
    (some "notes.txt") [1] "c" "tok" 7 none (Or.inl (by decide))

/-- C4: the declared content type is trimmed and lower-cased; the handler
raises 415 exactly when the normalized value is outside the allow-list;
every 415 detail surfaces the sorted allow-list; a failing request
produces no events at all, in particular the body is never read; and on
success the normalized value is the `file_type` of the created post. -/
theorem content_type_validation (ct : Option String) :
    (_validate_upload_file_type ct =
        Except.ok (pyLower (pyStrip (ct.getD ""))) ↔
      pyLower (pyStrip (ct.getD "")) ∈ ALLOWED_UPLOAD_CONTENT_TYPES) ∧
    ((∃ e, _validate_upload_file_type ct = Except.error e) ↔
      pyLower (pyStrip (ct.getD "")) ∉ ALLOWED_UPLOAD_CONTENT_TYPES) ∧
    (∀ e, _validate_upload_file_type ct = Except.error e →
      e.status = 415 ∧
      e.detail = "Unsupported file type \x27" ++
        (if pyLower (pyStrip (ct.getD "")) = "" then "unknown"
          else pyLower (pyStrip (ct.getD ""))) ++
        "\x27. Allowed types: " ++
        joinSep ", " (sortedStrings ALLOWED_UPLOAD_CONTENT_TYPES)) ∧
    joinSep ", " (sortedStrings ALLOWED_UPLOAD_CONTENT_TYPES) =
      "image/jpeg, image/png, image/webp" ∧
    (∀ maxBytes (st : SysState) fn payload caption token now insertErr e,
      _validate_upload_file_type ct = Except.error e →
      (upload_file maxBytes st ct fn payload caption token now
        insertErr).events = []) ∧
    (∀ maxBytes (st : SysState) fn payload caption token now insertErr msg
        post,
      (upload_file maxBytes st ct fn payload caption token now
        insertErr).result = UploadResult.created msg post →
      post.file_type = pyLower (pyStrip (ct.getD ""))) := by
  have hn_ok : pyLower (pyStrip (ct.getD "")) ∈ ALLOWED_UPLOAD_CONTENT_TYPES
      → _validate_upload_file_type ct =
        Except.ok (pyLower (pyStrip (ct.getD ""))) := by
    intro hmem
    unfold _validate_upload_file_type
    dsimp only
    rw [if_pos hmem]
  have hn_err : pyLower (pyStrip (ct.getD "")) ∉ ALLOWED_UPLOAD_CONTENT_TYPES
      → _validate_upload_file_type ct = Except.error
        { status := 415
          detail := "Unsupported file type \x27" ++
            (if pyLower (pyStrip (ct.getD "")) = "" then "unknown"
              else pyLower (pyStrip (ct.getD ""))) ++
            "\x27. Allowed types: " ++
            joinSep ", " (sortedStrings ALLOWED_UPLOAD_CONTENT_TYPES) } := by
    intro hmem
    unfold _validate_upload_file_type
    dsimp only
    rw [if_neg hmem]
  refine ⟨?_, ?_, ?_, by decide, ?_, ?_⟩
  · constructor
    · intro hok
      by_contra hmem
      rw [hn_err hmem] at hok
      cases hok
    · exact hn_ok
  · constructor
    · rintro ⟨e, he⟩ hmem
      rw [hn_ok hmem] at he
      cases he
    · intro hmem
      exact ⟨_, hn_err hmem⟩
  · intro e he
    by_cases hmem :
        pyLower (pyStrip (ct.getD "")) ∈ ALLOWED_UPLOAD_CONTENT_TYPES
    · rw [hn_ok hmem] at he
      cases he
    · rw [hn_err hmem] at he
      cases he
      exact ⟨rfl, rfl⟩
  · intro maxBytes st fn payload caption token now insertErr e he
    rw [upload_file_eq_validate_error maxBytes st fn payload caption token
      now insertErr he]
  · intro maxBytes st fn payload caption token now insertErr msg post h
    obtain ⟨ctype, content, hv, hr, _, _, hpost⟩ :=
      upload_created_shape maxBytes st ct fn payload caption token now
        insertErr msg post h
    subst hpost
    simpa [mkPost] using validate_ok_eq hv

/-- Witness for C4: the no-events conjunct at a concrete 415 request. -/
theorem content_type_validation_witness :
    (upload_file 100 ⟨∅, []⟩ (some "text/plain") (some "notes.txt") [1] "c"
      "tok" 7 none).events = [] :=
  (content_type_validation (some "text/plain")).2.2.2.2.1 100 ⟨∅, []⟩
    (some "notes.txt") [1] "c" "tok" 7 none _ rfl

/-- C5 (amended): the uploaded file handle is closed — as the final action
— on the success and persistence-failure exit paths, the ones covered by
the try/finally around the insert; the validation-failure paths (415, 400,
413) return before that block and never close the file. -/
theorem upload_close_on_persistence_paths (maxBytes : Nat) (st : SysState)
    (ct fn : Option String) (payload : List Nat) (caption token : String)
    (now : Nat) (insertErr : Option String) (ctype : String)
    (content : List Nat)
    (hv : _validate_upload_file_type ct = Except.ok ctype)
    (hr : _read_file_content maxBytes payload = Except.ok content) :
    Ev.close ∈ (upload_file maxBytes st ct fn payload caption token now
      insertErr).events ∧
    (upload_file maxBytes st ct fn payload caption token now
      insertErr).events.getLast? = some Ev.close := by
  cases insertErr with
  | none =>
      rw [upload_file_eq_commit maxBytes st fn caption token now hv hr]
      exact ⟨by simp, rfl⟩
  | some m =>
      rw [upload_file_eq_rollback maxBytes st fn caption token now m hv hr]
      exact ⟨by simp, rfl⟩

/-- Witness for the amended C5 on a concrete persistence-failure path. -/
theorem upload_close_on_persistence_paths_witness :
    Ev.close ∈ (upload_file 100 ⟨∅, []⟩ (some "image/png") (some "a.png")
      [1] "c" "tok" 7 (some "db down")).events ∧
    (upload_file 100 ⟨∅, []⟩ (some "image/png") (some "a.png") [1] "c"
      "tok" 7 (some "db down")).events.getLast? = some Ev.close :=
  upload_close_on_persistence_paths 100 ⟨∅, []⟩ (some "image/png")
    (some "a.png") [1] "c" "tok" 7 (some "db down") "image/png" [1] rfl rfl

/-- C5 counterexample: a 415 validation failure is an exit path of the
upload handler on which the handler performs no close action, refuting the
claim that the handle is released on every exit path. -/
theorem upload_close_counterexample :
    (∃ e, (upload_file MAX_UPLOAD_SIZE_BYTES ⟨∅, []⟩ (some "text/plain")
        (some "notes.txt") [1, 2] "cap" "tok" 0 none).result =
      UploadResult.error e ∧ e.status = 415) ∧
    Ev.close ∉ (upload_file MAX_UPLOAD_SIZE_BYTES ⟨∅, []⟩
      (some "text/plain") (some "notes.txt") [1, 2] "cap" "tok" 0
      none).events := by
  constructor
  · exact ⟨_, rfl, rfl⟩
  · decide

/-- Each upload step either leaves the table unchanged or appends one post
whose url is the uploads prefix plus its stored file name. -/
theorem upload_db_mem (maxBytes : Nat) (st : SysState) (ct fn : Option String)
    (payload : List Nat) (caption token : String) (now : Nat)
    (insertErr : Option String) (p : PostRec)
    (hp : p ∈ (upload_file maxBytes st ct fn payload caption token now
      insertErr).state.db) :
    p ∈ st.db ∨ p.url = "/uploads/" ++ p.file_name := by
  cases hv : _validate_upload_file_type ct with
  | error e =>
      rw [upload_file_eq_validate_error maxBytes st fn payload caption token
        now insertErr hv] at hp
      exact Or.inl hp
  | ok ctype =>
      cases hr : _read_file_content maxBytes payload with
      | error e =>
          rw [upload_file_eq_read_error maxBytes st fn caption token now
            insertErr hv hr] at hp
          exact Or.inl hp
      | ok content =>
          cases insertErr with
          | some m =>
              rw [upload_file_eq_rollback maxBytes st fn caption token now m
                hv hr] at hp
              exact Or.inl hp
          | none =>
              rw [upload_file_eq_commit maxBytes st fn caption token now
                hv hr] at hp
              rw [List.mem_append] at hp
              rcases hp with hmem | hmem
              · exact Or.inl hmem
              · rw [List.mem_singleton] at hmem
                subst hmem
                exact Or.inr rfl

/-- C10: in every reachable state, every post of the table satisfies
url = "/uploads/" ++ file_name: the upload handler is the only creation
path and always derives the url from the generated storage name. -/
theorem post_url_invariant (maxBytes : Nat) (st : SysState)
    (h : Reachable maxBytes st) :
    ∀ p ∈ st.db, p.url = "/uploads/" ++ p.file_name := by
  induction h with
  | init =>
      intro p hp
      simp at hp
  | upload st' h' ct fn payload caption token now insertErr ih =>
      intro p hp
      rcases upload_db_mem maxBytes st' ct fn payload caption token now
        insertErr p hp with hmem | hurl
      · exact ih p hmem
      · exact hurl

/-- Witness for C10 at the state reached by one successful upload. -/
theorem post_url_invariant_witness :
    (⟨some "hi", "/uploads/tok.png", "image/png", "tok.png", 7⟩ :
        PostRec).url =
      "/uploads/" ++ (⟨some "hi", "/uploads/tok.png", "image/png",
        "tok.png", 7⟩ : PostRec).file_name :=
  post_url_invariant 100 _
    (Reachable.upload ⟨∅, []⟩ Reachable.init (some "image/png")
      (some "a.png") [1] "hi" "tok" 7 none)
    ⟨some "hi", "/uploads/tok.png", "image/png", "tok.png", 7⟩ (by decide)

end PhotoShare
